import Mathlib

/-!
# Verification of `modeling_kosmos2_5.py` (KOSMOS-2.5 model)

A shallow embedding, over exact rationals, of the algorithmic core of
`src/transformers/models/kosmos2_5/modeling_kosmos2_5.py`:

* head-dimension validation in `Kosmos2_5TextAttention.__init__`;
* the three text attention strategies (`Kosmos2_5TextAttention` = eager,
  `Kosmos2_5TextSdpaAttention`, `Kosmos2_5TextFlashAttention2`);
* causal mask construction in `Kosmos2_5TextTransformer._update_causal_mask`;
* sinusoidal positional embeddings
  (`Kosmos2_5TextSinusoidalPositionalEmbedding`);
* position-id derivation (`create_position_ids_from_input_ids`,
  `create_position_ids_from_inputs_embeds`);
* `Kosmos2_5ImageToTextProjection.forward`;
* the automatic padding mask of `Kosmos2_5VisionModel.forward`.

Tensors of one batch element are modeled as lists of row vectors over `ℚ`.
Transcendental scalar functions of the source (`exp` inside softmax, `sin`,
`cos`, the frequency table, `head_dim ** -0.5`) are abstract parameters: every
theorem below is proved uniformly in them, so it holds in particular at the
real-valued instances.  The additive-mask fill value `torch.finfo(dtype).min`
is modeled as `none : Option ℚ`: adding the float minimum to a finite score
drives the corresponding softmax weight to exactly zero in the float
arithmetic of the source, which is what `none` denotes here.

The Python file itself does not compile (`ast.parse` fails at line 1262 with a
stray duplicated return-annotation line inside `Kosmos2_5TextBlock.forward`;
`_update_causal_mask`'s parameter list is split mid-identifier at lines
1362-1363), and `Kosmos2_5TextTransformer.forward` references several names
that are never defined (`past_key_values_length`, `past_key_value`,
`input_shape`, `AttentionMaskConverter`, `BaseModelOutputWithPast`).  The
call-level consequences of those defects are modeled explicitly with
`Except`-valued functions near the end of the file; the per-component
definitions above them embed the per-function logic as written.
-/

namespace Kosmos2_5

/-- A row vector (one position's channels), exact-rational model of a
float tensor row. -/
abbrev Vec := List ℚ

/-- A `(seq_len, channels)` tensor of one batch element: a list of rows. -/
abbrev Mat := List Vec

/-- Entry of an additive attention mask.  `some c` is a finite bias `c`;
`none` is the `torch.finfo(dtype).min` fill value, whose softmax weight is
exactly `0`. -/
abbrev MaskEntry := Option ℚ

/-- An additive 4D mask for one batch element and head-broadcast dimension:
entry at query row `i`, key column `j`. -/
abbrev AddMask := ℕ → ℕ → MaskEntry

/-- Result of a Python call: `.error msg` models a raised exception. -/
abbrev Py (α : Type) := Except String α

/-! ## Head-dimension validation (`Kosmos2_5TextAttention.__init__`, lines 920-951)

```python
self.head_dim = embed_dim // num_heads
if (self.head_dim * num_heads) != self.embed_dim:
    raise ValueError(
        f"embed_dim must be divisible by num_heads (got `embed_dim`: {self.embed_dim}"
        f" and `num_heads`: {num_heads}).")
```
-/

/-- The construction-time divisibility check of `Kosmos2_5TextAttention.__init__`;
returns `head_dim` on success. -/
def textAttentionInitHeadDim (embedDim numHeads : ℕ) : Py ℕ :=
  let headDim := embedDim / numHeads
  if headDim * numHeads ≠ embedDim then
    .error "ValueError: embed_dim must be divisible by num_heads"
  else
    .ok headDim

/-! ## Automatic vision padding mask (`Kosmos2_5VisionModel.forward`, lines 1756-1758)

```python
if attention_mask is None:
    # check where `flattened_patches` is not 0
    attention_mask = (flattened_patches.sum(dim=-1) != 0).float()
```
-/

/-- The mask derived from the patch content when no mask is supplied:
`(flattened_patches.sum(dim=-1) != 0).float()`. -/
def visionAutoAttentionMask (flattenedPatches : Mat) : List ℚ :=
  flattenedPatches.map (fun row => if row.sum ≠ 0 then 1 else 0)

/-- The attention mask actually used by `Kosmos2_5VisionModel.forward`:
the caller's mask when supplied, else the automatically derived one. -/
def visionModelAttentionMask (attentionMask : Option (List ℚ))
    (flattenedPatches : Mat) : List ℚ :=
  match attentionMask with
  | some m => m
  | none => visionAutoAttentionMask flattenedPatches

/-! ## The 4D-mask branch of `_update_causal_mask` (lines 1402-1406)

```python
if attention_mask is not None and attention_mask.dim() == 4:
    # in this case we assume that the mask comes already in inverted form
    # and requires no inversion or slicing
    if attention_mask.max() != 0:
        raise ValueError("Custom 4D attention mask should be passed in inverted form with max==0`")
    causal_mask = attention_mask
```
-/

/-- A caller-supplied 4D float mask `(batch, 1, q_len, k_len)`. -/
abbrev Mask4 := List (List (List (List ℚ)))

/-- All entries of a 4D mask, flattened. -/
def mask4Entries (m : Mask4) : List ℚ :=
  (m.map (fun a => (a.map (fun b => b.flatten)).flatten)).flatten

/-- `attention_mask.max()`: the maximum entry (of a nonempty tensor;
`0` is returned for the empty tensor, which torch would instead reject). -/
def mask4Max (m : Mask4) : ℚ :=
  match mask4Entries m with
  | [] => 0
  | x :: xs => xs.foldl max x

/-- The 4D-mask acceptance step of
`Kosmos2_5TextTransformer._update_causal_mask`: reject when the maximum entry
differs from `0`, else use the mask unchanged. -/
def updateCausalMask4D (m : Mask4) : Py Mask4 :=
  if mask4Max m ≠ 0 then
    .error "ValueError: Custom 4D attention mask should be passed in inverted form with max==0`"
  else
    .ok m

/-! ## Position-id derivation

`create_position_ids_from_input_ids` (lines 89-102):
```python
mask = input_ids.ne(padding_idx).int()
incremental_indices = (torch.cumsum(mask, dim=1).type_as(mask) + past_key_values_length) * mask
return incremental_indices.long() + padding_idx
```

`create_position_ids_from_inputs_embeds` (lines 874-889):
```python
position_ids = torch.arange(
    self.padding_idx + 1, sequence_length + self.padding_idx + 1, ...)
return position_ids.unsqueeze(0).expand(input_shape).contiguous() + past_key_values_length
```
-/

/-- Inclusive prefix sums, `torch.cumsum(·, dim=1)` on one row. -/
def cumsum (l : List ℤ) : List ℤ :=
  (l.scanl (· + ·) 0).drop 1

/-- `create_position_ids_from_input_ids` on one row of token ids. -/
def createPositionIdsFromInputIds (inputIds : List ℤ) (paddingIdx : ℤ)
    (pastKeyValuesLength : ℤ) : List ℤ :=
  let mask := inputIds.map (fun t => if t ≠ paddingIdx then (1 : ℤ) else 0)
  let incrementalIndices :=
    List.zipWith (fun c m => (c + pastKeyValuesLength) * m) (cumsum mask) mask
  incrementalIndices.map (· + paddingIdx)

/-- `create_position_ids_from_inputs_embeds` on one batch row:
`arange(padding_idx + 1, sequence_length + padding_idx + 1) + past_key_values_length`. -/
def createPositionIdsFromInputsEmbeds (sequenceLength : ℕ) (paddingIdx : ℤ)
    (pastKeyValuesLength : ℤ) : List ℤ :=
  ((List.range sequenceLength).map (fun (i : ℕ) => paddingIdx + 1 + (i : ℤ))).map
    (· + pastKeyValuesLength)

/-- Count of non-padding tokens among `l`. -/
def countNonPadding (l : List ℤ) (paddingIdx : ℤ) : ℕ :=
  (l.filter (fun t => t ≠ paddingIdx)).length

/-! ## Sinusoidal positional embeddings
(`Kosmos2_5TextSinusoidalPositionalEmbedding`, lines 804-889)

`get_embedding` builds the whole table from scratch:
```python
half_dim = embedding_dim // 2
emb = math.log(10000) / (half_dim - 1)
emb = torch.exp(torch.arange(half_dim, ...).float() * -emb)
emb = torch.arange(num_embeddings, ...).float().unsqueeze(1) * emb.unsqueeze(0)
emb = torch.cat([torch.sin(emb), torch.cos(emb)], dim=1).view(num_embeddings, -1)
if embedding_dim % 2 == 1:
    emb = torch.cat([emb, torch.zeros(num_embeddings, 1)], dim=1)
if padding_idx is not None:
    emb[padding_idx, :] = 0
```
The frequency vector `exp(-i * ln 10000 / (half_dim - 1))` and `sin`/`cos` are
transcendental; they appear below as abstract parameters `freq`, `sinf`,
`cosf`, so every theorem holds at the real instances in particular.

`forward` regrows the table when a position past its end is needed
(lines 866-869, with `self.offset = 2`):
```python
max_pos = self.padding_idx + 1 + seq_len + past_key_values_length
if max_pos > self.weights.size(0):
    self.make_weights(max_pos + self.offset, self.embedding_dim, self.padding_idx)
```
and `make_weights` rebuilds the table by calling `get_embedding` at the new
size.
-/

/-- `get_embedding(num_embeddings, embedding_dim, padding_idx)`: the full
sinusoidal table, one row per position. -/
def getEmbedding (numEmbeddings embeddingDim : ℕ) (paddingIdx : Option ℕ)
    (freq : ℕ → ℚ) (sinf cosf : ℚ → ℚ) : Mat :=
  let halfDim := embeddingDim / 2
  let row : ℕ → Vec := fun pos =>
    let base :=
      ((List.range halfDim).map fun i => sinf ((pos : ℚ) * freq i)) ++
      ((List.range halfDim).map fun i => cosf ((pos : ℚ) * freq i))
    let padded := if embeddingDim % 2 = 1 then base ++ [0] else base
    if paddingIdx = some pos then padded.map (fun _ => 0) else padded
  (List.range numEmbeddings).map row

/-- The table size after one `forward` call: regrown to
`max_pos + offset` (offset = 2) when `max_pos` exceeds the current size,
unchanged otherwise. -/
def forwardWeightsSize (currentSize paddingIdx seqLen pastKeyValuesLength : ℕ) : ℕ :=
  let maxPos := paddingIdx + 1 + seqLen + pastKeyValuesLength
  if maxPos > currentSize then maxPos + 2 else currentSize

/-! ## The three text attention strategies

All three subclasses share the projection weights (`q_proj`, `k_proj`,
`v_proj`, `out_proj`, optional `inner_attn_ln`); they differ only in their
`forward`.  One batch element is modeled; dropout is `0` (disabled /
evaluation mode) and no key/value cache is supplied, matching the claims.
Projections are abstract functions `Vec → Vec` (learned weights), the softmax
exponential is the abstract `expf`, and `self.scaling = head_dim ** -0.5` is
the abstract rational `scaling` (each strategy applies the same number, either
pre-multiplied into the query or as a score scale).

Head bookkeeping follows `_shape`/`transpose(1, 2).reshape`: flattened channel
`c` of the merged output belongs to head `c / head_dim`, inner dimension
`c % head_dim`, and the per-head score at `(i, j)` sums products of channels
`h * head_dim + d` for `d < head_dim`.
-/

/-- Shared parameters of one text attention module (all three strategy
subclasses reuse them unchanged). -/
structure AttnParams where
  qProj : Vec → Vec
  kProj : Vec → Vec
  vProj : Vec → Vec
  outProj : Vec → Vec
  /-- `inner_attn_ln` when `add_inner_attn_layernorm` else `none`. -/
  innerLn : Option (Vec → Vec)
  numHeads : ℕ
  headDim : ℕ
  /-- `self.scaling = self.head_dim ** -0.5` (abstract: irrational). -/
  scaling : ℚ
  /-- the `is_causal` constructor flag. -/
  isCausal : Bool
  /-- the exponential used by softmax (abstract). -/
  expf : ℚ → ℚ

/-- The parameters as constructed by `Kosmos2_5TextBlock.__init__`
(lines 1232-1241): `is_decoder=True, add_inner_attn_layernorm=False,
is_causal=True`. -/
def decoderAttnParams (qp kp vp op : Vec → Vec) (nH hd : ℕ) (s : ℚ)
    (ef : ℚ → ℚ) : AttnParams :=
  { qProj := qp, kProj := kp, vProj := vp, outProj := op,
    innerLn := none, numHeads := nH, headDim := hd,
    scaling := s, isCausal := true, expf := ef }

/-- The parameters as constructed by `Kosmos2_5ImageToTextProjection.__init__`
(lines 1619-1627): `is_decoder=False, add_inner_attn_layernorm=False,
is_causal=False`. -/
def projectionAttnParams (qp kp vp op : Vec → Vec) (nH hd : ℕ) (s : ℚ)
    (ef : ℚ → ℚ) : AttnParams :=
  { qProj := qp, kProj := kp, vProj := vp, outProj := op,
    innerLn := none, numHeads := nH, headDim := hd,
    scaling := s, isCausal := false, expf := ef }

/-- Softmax numerator of a possibly-masked score: the fill value
`torch.finfo(dtype).min` (modeled `none`) yields weight exactly `0`. -/
def softmaxWeight (expf : ℚ → ℚ) : MaskEntry → ℚ
  | none => 0
  | some x => expf x

/-- Per-head raw score `q_i · k_j` over the channels of head `h`
(`torch.matmul(query_states, key_states.transpose(-1, -2))` after `_shape`). -/
def headScore (hd h : ℕ) (q k : Vec) : ℚ :=
  ((List.range hd).map (fun d =>
    q.getD (h * hd + d) 0 * k.getD (h * hd + d) 0)).sum

/-- Add an optional additive-mask entry to a finite score. -/
def addMaskEntry (s : ℚ) : MaskEntry → MaskEntry
  | none => none
  | some c => some (s + c)

/-- softmax-weight of key `j` for query `i` of head `h`, already divided by
the row normalizer over `kLen` keys. -/
def normWeight (expf : ℚ → ℚ) (kLen : ℕ) (biased : ℕ → MaskEntry) (j : ℕ) : ℚ :=
  softmaxWeight expf (biased j) /
    ((List.range kLen).map (fun j2 => softmaxWeight expf (biased j2))).sum

/-- Merge heads + weighted value sum: channel `c` of output row `i` is
`Σ_{j<kLen} weight (c / head_dim) j * v_j[c]` (this is
`torch.matmul(attn_weights, value_states)` followed by
`transpose(1, 2).reshape(bsz, seq, -1)`). -/
def mergedRow (nH hd kLen : ℕ) (weight : ℕ → ℕ → ℚ) (v : ℕ → Vec) : Vec :=
  (List.range (nH * hd)).map (fun c =>
    ((List.range kLen).map (fun j => weight (c / hd) j * (v j).getD c 0)).sum)

/-- `Kosmos2_5TextAttention.forward` (eager strategy, lines 965-1038), with
`past_key_value=None`, dropout `0`: scaling is pre-multiplied into the query
projection (`self._shape(self.q_proj(hidden_states) * self.scaling)`), the
supplied additive mask is sliced to the key length and added to the raw
scores, softmax is taken over the key axis, heads are merged,
`inner_attn_ln` applies when present, then `out_proj`. -/
def eagerAttend (p : AttnParams) (hidden : Mat) (encoderHidden : Option Mat)
    (mask : Option AddMask) : Mat :=
  let current := encoderHidden.getD hidden
  let qLen := hidden.length
  let kLen := current.length
  let q : ℕ → Vec := fun t => (p.qProj (hidden.getD t [])).map (· * p.scaling)
  let k : ℕ → Vec := fun t => p.kProj (current.getD t [])
  let v : ℕ → Vec := fun t => p.vProj (current.getD t [])
  let biased : ℕ → ℕ → ℕ → MaskEntry := fun h i j =>
    match mask with
    | none => some (headScore p.headDim h (q i) (k j))
    | some m => addMaskEntry (headScore p.headDim h (q i) (k j)) (m i j)
  let weight : ℕ → ℕ → ℕ → ℚ := fun h i j =>
    normWeight p.expf kLen (biased h i) j
  (List.range qLen).map (fun i =>
    p.outProj ((p.innerLn.getD id)
      (mergedRow p.numHeads p.headDim kLen (fun h j => weight h i j) v)))

/-- `torch.nn.functional.scaled_dot_product_attention`: softmax of
`scale * QKᵀ` plus either the supplied additive mask or (when `is_causal`)
the upper-triangular causal fill, times `V`.  Row `i` of the per-head,
merged-head output. -/
def sdpaPrimitiveRow (expf : ℚ → ℚ) (scaling : ℚ) (nH hd kLen : ℕ)
    (q k v : ℕ → Vec) (attnMask : Option AddMask) (isCausal : Bool)
    (i : ℕ) : Vec :=
  let biased : ℕ → ℕ → MaskEntry := fun h j =>
    let s := scaling * headScore hd h (q i) (k j)
    match attnMask with
    | some m => addMaskEntry s (m i j)
    | none => if isCausal ∧ i < j then none else some s
  mergedRow nH hd kLen (fun h j => normWeight expf kLen (biased h) j) v

/-- `Kosmos2_5TextSdpaAttention.forward` (lines 1142-1218), with
`past_key_value=None`, dropout `0`, `output_attentions=False`: the query is
*not* pre-scaled, the mask is sliced to the key length, and
`is_causal = (causal_mask is None and q_len > 1) and self.is_causal`
is passed to the fused primitive. -/
def sdpaAttend (p : AttnParams) (hidden : Mat) (encoderHidden : Option Mat)
    (mask : Option AddMask) : Mat :=
  let current := encoderHidden.getD hidden
  let qLen := hidden.length
  let kLen := current.length
  let q : ℕ → Vec := fun t => p.qProj (hidden.getD t [])
  let k : ℕ → Vec := fun t => p.kProj (current.getD t [])
  let v : ℕ → Vec := fun t => p.vProj (current.getD t [])
  let isCausal := (mask.isNone && decide (1 < qLen)) && p.isCausal
  (List.range qLen).map (fun i =>
    p.outProj ((p.innerLn.getD id)
      (sdpaPrimitiveRow p.expf p.scaling p.numHeads p.headDim kLen
        q k v mask isCausal i)))

/-- `_flash_attention_forward`: bottom-right-aligned causal masking — key `j`
is visible to query `i` iff `j ≤ i + (kLen - qLen)`; scores are scaled by the
kernel's `softmax_scale = head_dim ** -0.5`.  Row `i` of the merged output. -/
def flashPrimitiveRow (expf : ℚ → ℚ) (scaling : ℚ) (nH hd qLen kLen : ℕ)
    (q k v : ℕ → Vec) (isCausal : Bool) (i : ℕ) : Vec :=
  let biased : ℕ → ℕ → MaskEntry := fun h j =>
    if isCausal ∧ i + (kLen - qLen) < j then none
    else some (scaling * headScore hd h (q i) (k j))
  mergedRow nH hd kLen (fun h j => normWeight expf kLen (biased h) j) v

/-- `Kosmos2_5TextFlashAttention2.forward` (lines 1057-1131), with
`past_key_value=None`, dropout `0`: the attention-mask argument is accepted
but *ignored* (the kernel is called with `None`, line 1114), the query is not
pre-scaled, and `is_causal=self.is_causal` is always passed. -/
def flashAttend (p : AttnParams) (hidden : Mat) (encoderHidden : Option Mat)
    (_mask : Option AddMask) : Mat :=
  let current := encoderHidden.getD hidden
  let qLen := hidden.length
  let kLen := current.length
  let q : ℕ → Vec := fun t => p.qProj (hidden.getD t [])
  let k : ℕ → Vec := fun t => p.kProj (current.getD t [])
  let v : ℕ → Vec := fun t => p.vProj (current.getD t [])
  (List.range qLen).map (fun i =>
    p.outProj ((p.innerLn.getD id)
      (flashPrimitiveRow p.expf p.scaling p.numHeads p.headDim qLen kLen
        q k v p.isCausal i)))

/-- `KOSMOS2_5_TEXT_ATTENTION_CLASSES` (lines 1221-1225). -/
inductive AttnStrategy
  | eager
  | flash_attention_2
  | sdpa
deriving DecidableEq

/-- Dispatch on the configured attention strategy. -/
def attendByStrategy : AttnStrategy → AttnParams → Mat → Option Mat →
    Option AddMask → Mat
  | .eager => eagerAttend
  | .flash_attention_2 => flashAttend
  | .sdpa => sdpaAttend

/-! ## Causal mask construction (`_update_causal_mask`, non-4D branch,
lines 1407-1422), for the explicit (eager) strategy with `attention_mask=None`
and no cache — `cache_position = arange(0, L)`:

```python
causal_mask = torch.full((sequence_length, target_length), fill_value=min_dtype, ...)
if sequence_length != 1:
    causal_mask = torch.triu(causal_mask, diagonal=1)
causal_mask *= torch.arange(target_length, ...) > cache_position.reshape(-1, 1)
```
(`target_length = past_seen_tokens + sequence_length + 1` when no 2D mask is
given; only the first `key_len` columns are consumed by the attention, which
slices the mask.)
-/

/-- The additive causal mask built by `_update_causal_mask` for a no-padding,
no-cache decoder call of sequence length `L`: entry at query row `i`, key
column `j`. -/
def updateCausalMaskNoPad (L : ℕ) : AddMask := fun i j =>
  let afterTriu : MaskEntry :=
    if L ≠ 1 then (if i < j then none else some 0) else none
  if i < j then afterTriu else some 0

/-! ## ImageToTextProjection (`Kosmos2_5ImageToTextProjection.forward`,
lines 1629-1644)

```python
hidden_states = self.dense(features)
latent_query = self.latent_query.unsqueeze(0).expand(hidden_states.size(0), -1, -1)
key_value_states = torch.cat([hidden_states, latent_query], dim=1)
hidden_states, attn_weights, _ = self.x_attn(
    hidden_states=latent_query, encoder_hidden_states=key_value_states,
    past_key_value=None, attention_mask=None, output_attentions=None)
```
`self.latent_query = nn.Parameter(torch.randn(config.latent_query_num,
config.text_config.embed_dim))` — modeled by `latentQueryNum` rows drawn from
the abstract initializer `latentQueryInit`.
-/

/-- `Kosmos2_5ImageToTextProjection.forward` (attention output only; the
weights output is disabled). -/
def imageToTextProjectionForward (strategy : AttnStrategy)
    (dense : Vec → Vec) (latentQueryNum : ℕ) (latentQueryInit : ℕ → Vec)
    (qp kp vp op : Vec → Vec) (nH hd : ℕ) (s : ℚ) (ef : ℚ → ℚ)
    (features : Mat) : Mat :=
  let hidden := features.map dense
  let latentQuery := (List.range latentQueryNum).map latentQueryInit
  let keyValueStates := hidden ++ latentQuery
  attendByStrategy strategy (projectionAttnParams qp kp vp op nH hd s ef)
    latentQuery (some keyValueStates) none

/-! ## The decoder forward chain, as written (`Kosmos2_5TextTransformer.forward`,
lines 1482-1606, eager attention implementation)

The body of this method, as committed, cannot produce a value:

* line 1506 raises `ValueError` when neither or both of
  `input_ids`/`inputs_embeds` are supplied
  (`if (input_ids is None) ^ (inputs_embeds is not None)`);
* lines 1522-1526: when `cache_position` is `None` the method evaluates
  `inputs_embeds.shape[1]` — but on the `input_ids` path `inputs_embeds`
  is still `None` at this point (it is only created later, inside
  `forward_embedding`, line 1447), so the call dies with
  `AttributeError: 'NoneType' object has no attribute 'shape'`;
* when `cache_position` is supplied and `inputs_embeds` is `None`,
  `_update_causal_mask` (line 1530) reads `input_tensor.dtype` (line 1390)
  on `None` — the same `AttributeError` with attribute `dtype`;
* when `inputs_embeds` *is* supplied, the mask is built, but the call to
  `forward_embedding` at lines 1534-1541 passes the local name
  `past_key_values_length`, which is bound nowhere in the method —
  `NameError` (lines 1576 `past_key_value` and 1601
  `BaseModelOutputWithPast` are further undefined names on the same path).

Hence every invocation raises.  (Independently, the module does not even
import: `ast.parse` rejects a stray duplicated return-annotation line at 1262
inside `Kosmos2_5TextBlock.forward`, `_update_causal_mask`'s parameter
`output_attentions` is split mid-identifier across lines 1362-1363, and
`Kosmos2_5TextTransformer.__init__` line 1352 calls
`Kosmos2_5TextBlock(config)` without the required `layer_idx` argument.)
The model below follows the method's own control flow to the first failure of
each path.
-/

/-- `Kosmos2_5TextTransformer.forward` (eager attention implementation,
`output_attentions=False`, dynamic cache), modeled to the first dynamic
failure of each control path.  The nominal success type is the final hidden
states; no path reaches a value. -/
def textTransformerForwardEager (inputIds : Option (List ℤ))
    (_attentionMask : Option (List ℚ)) (_pastKeyValues : Option Unit)
    (inputsEmbeds : Option Mat) (cachePosition : Option (List ℕ)) : Py Mat :=
  if xor inputIds.isNone inputsEmbeds.isSome then
    .error "ValueError: You cannot specify both input_ids and inputs_embeds at the same time, and must specify either one"
  else
    match cachePosition, inputsEmbeds with
    | none, none =>
      .error "AttributeError: 'NoneType' object has no attribute 'shape'"
    | some _, none =>
      .error "AttributeError: 'NoneType' object has no attribute 'dtype'"
    | _, some _ =>
      .error "NameError: name 'past_key_values_length' is not defined"

/-- `Kosmos2_5ForConditionalGeneration.forward` (lines 2184-2288): after the
input check (lines 2247-2249) the vision encoder, feature normalization and
`image_to_text_projection` run and succeed (lines 2251-2258); their result
feeds `forward_embedding`, which is never reached, so it cannot influence the
outcome.  `self.text_model(...)` (line 2260, `Kosmos2_5TextForCausalLM.forward`)
delegates to `Kosmos2_5TextTransformer.forward` (line 2037) with the token
ids, no embeddings and no cache position, and the raised exception
propagates. -/
def conditionalGenerationForwardEager (flattenedPatches : Option Mat)
    (inputIds : Option (List ℤ)) (attentionMask : Option (List ℚ))
    (imageEmbeds : Option Mat) : Py Mat :=
  if imageEmbeds.isNone && flattenedPatches.isNone then
    .error "ValueError: You have to specify either `flattened_patches` or `image_embeds`."
  else
    textTransformerForwardEager inputIds attentionMask none none none

/-! ## Helper lemmas -/

/-- `getD` of a mapped range at an in-range index. -/
theorem getD_map_range {α : Type} (f : ℕ → α) (n i : ℕ) (d : α) (h : i < n) :
    ((List.range n).map f).getD i d = f i := by
  have hlen : i < ((List.range n).map f).length := by simpa using h
  rw [List.getD_eq_getElem _ _ hlen]
  simp

/-- `getD` with default `0` commutes with componentwise scaling. -/
theorem getD_map_mul (xs : List ℚ) (s : ℚ) (n : ℕ) :
    (xs.map (· * s)).getD n 0 = xs.getD n 0 * s := by
  induction xs generalizing n with
  | nil => simp
  | cons x xs ih =>
    cases n with
    | zero => simp
    | succ m => simpa using ih m

/-- Pre-multiplying the query by the scaling factor scales the per-head
score: `(q * s) · k = s * (q · k)`. -/
theorem headScore_scaled (hd h : ℕ) (u w : Vec) (s : ℚ) :
    headScore hd h (u.map (· * s)) w = s * headScore hd h u w := by
  unfold headScore
  rw [← List.sum_map_mul_left]
  refine congrArg List.sum (List.map_congr_left ?_)
  intro d _
  rw [getD_map_mul]
  ring

/-- `mergedRow` congruence from pointwise equality of the weighted value
contributions. -/
theorem mergedRow_congr (nH hd kLen : ℕ) (w w' : ℕ → ℕ → ℚ) (v v' : ℕ → Vec)
    (h : ∀ c, c < nH * hd → ∀ j, j < kLen →
      w (c / hd) j * (v j).getD c 0 = w' (c / hd) j * (v' j).getD c 0) :
    mergedRow nH hd kLen w v = mergedRow nH hd kLen w' v' := by
  unfold mergedRow
  refine List.map_congr_left ?_
  intro c hc
  refine congrArg List.sum (List.map_congr_left ?_)
  intro j hj
  exact h c (List.mem_range.mp hc) j (List.mem_range.mp hj)

/-- `normWeight` congruence from pointwise equality of the softmax
numerators over the key range. -/
theorem normWeight_congr (ef : ℚ → ℚ) (kLen : ℕ) (b b' : ℕ → MaskEntry)
    (h : ∀ j, j < kLen → softmaxWeight ef (b j) = softmaxWeight ef (b' j))
    (j : ℕ) (hj : j < kLen) :
    normWeight ef kLen b j = normWeight ef kLen b' j := by
  unfold normWeight
  rw [h j hj]
  congr 1
  refine congrArg List.sum (List.map_congr_left ?_)
  intro j2 hj2
  exact h j2 (List.mem_range.mp hj2)

/-- `scanl (+)` with seed `a` is the seed followed by the inclusive prefix
sums shifted by `a`. -/
theorem scanl_add_eq (l : List ℤ) : ∀ a : ℤ,
    List.scanl (· + ·) a l = a :: (cumsum l).map (a + ·) := by
  induction l with
  | nil => intro a; simp [cumsum]
  | cons x xs ih =>
    intro a
    have hcons : cumsum (x :: xs) = x :: (cumsum xs).map (x + ·) := by
      unfold cumsum
      rw [List.scanl_cons, List.singleton_append, List.drop_one,
        List.tail_cons, zero_add, ih x]
      rfl
    rw [List.scanl_cons, List.singleton_append, ih (a + x), hcons]
    simp only [List.map_cons, List.map_map]
    refine congrArg (a :: ·) (congrArg (_ :: ·) ?_)
    refine List.map_congr_left ?_
    intro c _
    simp [Function.comp]
    ring

/-- Inclusive prefix sums of a cons. -/
theorem cumsum_cons (x : ℤ) (xs : List ℤ) :
    cumsum (x :: xs) = x :: (cumsum xs).map (x + ·) := by
  unfold cumsum
  rw [List.scanl_cons, List.singleton_append, List.drop_one, List.tail_cons,
    zero_add, scanl_add_eq]
  rfl

/-- `zipWith` extensionality in the combining function. -/
theorem zipWith_ext {α β γ : Type} (f g : α → β → γ)
    (h : ∀ a b, f a b = g a b) :
    ∀ (l : List α) (l' : List β), List.zipWith f l l' = List.zipWith g l l' := by
  intro l
  induction l with
  | nil => intro l'; simp
  | cons a as ih =>
    intro l'
    cases l' with
    | nil => simp
    | cons b bs => simp [h a b, ih bs]

/-- Non-padding count of a cons. -/
theorem countNonPadding_cons (x : ℤ) (l : List ℤ) (pad : ℤ) :
    countNonPadding (x :: l) pad =
      (if x ≠ pad then 1 else 0) + countNonPadding l pad := by
  by_cases hx : x = pad <;> simp [countNonPadding, List.filter_cons, hx] <;>
    omega

/-- Unrolling `create_position_ids_from_input_ids` one token at a time: the
head token contributes its own (mask-weighted) position and shifts the
running count seen by the tail. -/
theorem createPositionIds_cons (x : ℤ) (xs : List ℤ) (pad past : ℤ) :
    createPositionIdsFromInputIds (x :: xs) pad past =
      ((((if x ≠ pad then (1 : ℤ) else 0) + past) *
          (if x ≠ pad then 1 else 0) + pad)
        :: createPositionIdsFromInputIds xs pad
            (past + (if x ≠ pad then 1 else 0))) := by
  simp only [createPositionIdsFromInputIds, List.map_cons, cumsum_cons,
    List.zipWith_cons_cons, List.zipWith_map_left]
  refine congrArg (_ :: ·) (congrArg (List.map (· + pad)) ?_)
  exact zipWith_ext _ _ (fun c m => by ring) _ _

/-- Pointwise closed form of `create_position_ids_from_input_ids`: the
padding index at padding slots, otherwise the padding index plus the past
length plus the inclusive count of non-padding tokens so far. -/
theorem createPositionIds_getD (ids : List ℤ) (pad : ℤ) : ∀ (past : ℤ) (i : ℕ),
    i < ids.length →
    (createPositionIdsFromInputIds ids pad past).getD i 0 =
      if ids.getD i 0 = pad then pad
      else pad + past + countNonPadding (ids.take (i + 1)) pad := by
  induction ids with
  | nil => intro past i hi; exact absurd hi (Nat.not_lt_zero i)
  | cons x xs ih =>
    intro past i hi
    rw [createPositionIds_cons]
    cases i with
    | zero =>
      by_cases hx : x = pad <;>
        simp [hx, countNonPadding_cons, countNonPadding] <;> ring
    | succ i =>
      have hi' : i < xs.length := by simpa using hi
      rw [List.getD_cons_succ, List.getD_cons_succ,
        ih (past + (if x ≠ pad then 1 else 0)) i hi']
      by_cases hx : x = pad <;>
        by_cases ht : xs.getD i 0 = pad <;>
          simp [hx, ht, List.take_succ_cons, countNonPadding_cons] <;> ring

/-- For key columns inside the sequence, the no-padding causal mask is `-∞`
strictly above the diagonal and `0` elsewhere, for every sequence length. -/
theorem updateCausalMaskNoPad_eq (L i j : ℕ) (hj : j < L) :
    updateCausalMaskNoPad L i j = if i < j then none else some 0 := by
  unfold updateCausalMaskNoPad
  by_cases hij : i < j
  · have hL : L ≠ 1 := by omega
    simp [hij, hL]
  · simp [hij]

/-- A key with `-∞` biased score receives softmax weight exactly `0`. -/
theorem normWeight_eq_zero (ef : ℚ → ℚ) (kLen : ℕ) (b : ℕ → MaskEntry)
    (j : ℕ) (hb : b j = none) : normWeight ef kLen b j = 0 := by
  unfold normWeight
  rw [hb]
  simp [softmaxWeight]

/-! ## Claim theorems -/

/-- **C6**: `Kosmos2_5TextAttention.__init__` raises its divisibility
`ValueError` exactly when `embed_dim` is not divisible by `num_heads`;
in particular `embed_dim=100, num_heads=7` raises and
`embed_dim=128, num_heads=8` succeeds with `head_dim = 16`. -/
theorem textAttention_divisibility_check :
    (∀ e n : ℕ, (∃ m, textAttentionInitHeadDim e n = Except.error m) ↔ ¬ n ∣ e)
    ∧ (∃ m, textAttentionInitHeadDim 100 7 = Except.error m)
    ∧ textAttentionInitHeadDim 128 8 = Except.ok 16 := by
  refine ⟨?_, ⟨_, rfl⟩, rfl⟩
  intro e n
  constructor
  · rintro ⟨m, hm⟩ hdvd
    have h : e / n * n = e := Nat.div_mul_cancel hdvd
    simp [textAttentionInitHeadDim, h] at hm
  · intro hdvd
    have h : e / n * n ≠ e := fun hc =>
      hdvd ⟨e / n, by rw [mul_comm]; exact hc.symm⟩
    exact ⟨"ValueError: embed_dim must be divisible by num_heads",
      by simp [textAttentionInitHeadDim, h]⟩

/-- **C10**: with `attention_mask=None`, `Kosmos2_5VisionModel.forward`
derives the padding mask from the input: patch row `i` gets mask value `1`
exactly when the sum over its channels is nonzero, and `0` exactly when that
sum is zero. -/
theorem visionModel_autoMask_spec (patches : Mat) (i : ℕ)
    (hi : i < patches.length) :
    ((visionModelAttentionMask none patches).getD i 0 = 1 ↔
      (patches.getD i []).sum ≠ 0)
    ∧ ((visionModelAttentionMask none patches).getD i 0 = 0 ↔
      (patches.getD i []).sum = 0) := by
  have hlen :
      i < (patches.map (fun row => if row.sum ≠ 0 then (1 : ℚ) else 0)).length := by
    simpa using hi
  unfold visionModelAttentionMask visionAutoAttentionMask
  rw [List.getD_eq_getElem _ _ hlen, List.getElem_map,
    List.getD_eq_getElem _ _ hi]
  by_cases h : patches[i].sum = 0 <;> simp [h]

/-- Witness for `visionModel_autoMask_spec`: a concrete three-row input whose
middle row `[1, -1]` sums to zero and is therefore masked. -/
theorem visionModel_autoMask_spec_witness :
    1 < ([[0, 0], [1, -1], [2, 3]] : Mat).length ∧
    (((visionModelAttentionMask none [[0, 0], [1, -1], [2, 3]]).getD 1 0 = 1 ↔
      (([[0, 0], [1, -1], [2, 3]] : Mat).getD 1 []).sum ≠ 0)
    ∧ ((visionModelAttentionMask none [[0, 0], [1, -1], [2, 3]]).getD 1 0 = 0 ↔
      (([[0, 0], [1, -1], [2, 3]] : Mat).getD 1 []).sum = 0)) :=
  ⟨by decide, visionModel_autoMask_spec [[0, 0], [1, -1], [2, 3]] 1 (by decide)⟩

/-- **C5 counterexample**: the all-`-1` mask has maximum `-1`, which does not
exceed `0`, yet `_update_causal_mask` raises the malformed-mask error — the
code rejects every maximum different from `0`, not only positive ones. -/
theorem updateCausalMask4D_claim_counterexample :
    updateCausalMask4D [[[[-1]]]] =
      Except.error "ValueError: Custom 4D attention mask should be passed in inverted form with max==0`"
    ∧ ¬ (0 < mask4Max [[[[-1]]]]) :=
  ⟨rfl, by decide⟩

/-- **C5 (amended)**: for a caller-supplied, nonempty 4D mask the
construction step raises the malformed-mask error exactly when the mask's
maximum *differs from* `0`, and otherwise accepts the mask unchanged. -/
theorem updateCausalMask4D_spec (m : Mask4) (_hne : mask4Entries m ≠ []) :
    (updateCausalMask4D m = Except.ok m ↔ mask4Max m = 0)
    ∧ ((∃ e, updateCausalMask4D m = Except.error e) ↔ mask4Max m ≠ 0) := by
  unfold updateCausalMask4D
  by_cases h : mask4Max m = 0 <;> simp [h]

/-- **C8 counterexample**: for the single-token input `[1]` with padding index
`1` (token = padding sentinel), the derived position id is the padding index
`1`, not `0` as the claim's "zero at padding slots" requires. -/
theorem createPositionIds_padding_counterexample :
    createPositionIdsFromInputIds [1] 1 0 = [1] ∧ ((1 : ℤ) ≠ 0) :=
  ⟨rfl, by decide⟩

/-- **C8 (amended)**: position ids from token ids equal the padding index
plus the past length plus the inclusive cumulative count of non-padding
tokens — so they begin at `padding_idx + 1` — and equal the *padding index*
(not zero) at padding slots; when only embeddings are given, positions are
purely sequential from `padding_idx + 1`, offset by the past length. -/
theorem createPositionIds_spec (ids : List ℤ) (pad past : ℤ) (i : ℕ)
    (hi : i < ids.length) (seqLen j : ℕ) (hj : j < seqLen) :
    ((createPositionIdsFromInputIds ids pad past).getD i 0 =
      if ids.getD i 0 = pad then pad
      else pad + past + countNonPadding (ids.take (i + 1)) pad)
    ∧ (createPositionIdsFromInputsEmbeds seqLen pad past).getD j 0 =
      pad + 1 + j + past := by
  refine ⟨createPositionIds_getD ids pad past i hi, ?_⟩
  unfold createPositionIdsFromInputsEmbeds
  rw [List.map_map, getD_map_range _ _ _ _ hj]
  simp [Function.comp]

/-- Witness for `createPositionIds_spec`: token ids `[5, 1, 7]` with padding
index `1`, queried at the non-padding slot `2`, and a three-position
embeddings-only call queried at slot `1`. -/
theorem createPositionIds_spec_witness :
    2 < ([5, 1, 7] : List ℤ).length ∧ 1 < 3 ∧
    (((createPositionIdsFromInputIds [5, 1, 7] 1 0).getD 2 0 =
      if ([5, 1, 7] : List ℤ).getD 2 0 = 1 then 1
      else 1 + 0 + countNonPadding (([5, 1, 7] : List ℤ).take 3) 1)
    ∧ (createPositionIdsFromInputsEmbeds 3 1 0).getD 1 0 = 1 + 1 + 1 + 0) :=
  ⟨by decide, by decide,
    createPositionIds_spec [5, 1, 7] 1 0 2 (by decide) 3 1 (by decide)⟩

/-- **C7**: the sinusoidal table is a deterministic function of the row index
alone — row `k` agrees between any two table sizes that contain it, so
regrowth (a full `make_weights` rebuild at the larger size) preserves every
previously returned row — and a `forward` call never shrinks the table while
regrowing it to at least `max_pos = padding_idx + 1 + seq_len + past` (with
margin 2) whenever that exceeds the current size. -/
theorem sinusoidalTable_deterministic_monotone (embeddingDim : ℕ)
    (paddingIdx : Option ℕ) (freq : ℕ → ℚ) (sinf cosf : ℚ → ℚ)
    (k n₁ n₂ : ℕ) (h₁ : k < n₁) (h₂ : k < n₂) (cur pid seqLen past : ℕ) :
    (getEmbedding n₁ embeddingDim paddingIdx freq sinf cosf).getD k []
      = (getEmbedding n₂ embeddingDim paddingIdx freq sinf cosf).getD k []
    ∧ cur ≤ forwardWeightsSize cur pid seqLen past
    ∧ pid + 1 + seqLen + past ≤ forwardWeightsSize cur pid seqLen past := by
  refine ⟨?_, ?_, ?_⟩
  · simp only [getEmbedding]
    rw [getD_map_range _ _ _ _ h₁, getD_map_range _ _ _ _ h₂]
  · by_cases h : pid + 1 + seqLen + past > cur <;>
      simp [forwardWeightsSize, h] <;> omega
  · by_cases h : pid + 1 + seqLen + past > cur <;>
      simp [forwardWeightsSize, h] <;> omega

/-- Witness for `sinusoidalTable_deterministic_monotone`: row `2` of a
4-dimensional table (padding index 1) agrees between sizes 3 and 5, and a
current size 4 with `max_pos = 1 + 1 + 2 + 0` does not shrink. -/
theorem sinusoidalTable_deterministic_monotone_witness :
    2 < 3 ∧ 2 < 5 ∧
    ((getEmbedding 3 4 (some 1) (fun i => (i : ℚ) + 1) id id).getD 2 []
      = (getEmbedding 5 4 (some 1) (fun i => (i : ℚ) + 1) id id).getD 2 []
    ∧ 4 ≤ forwardWeightsSize 4 1 2 0
    ∧ 1 + 1 + 2 + 0 ≤ forwardWeightsSize 4 1 2 0) :=
  ⟨by decide, by decide,
    sinusoidalTable_deterministic_monotone 4 (some 1) (fun i => (i : ℚ) + 1)
      id id 2 3 5 (by decide) (by decide) 4 1 2 0⟩

/-- Witness for `updateCausalMask4D_spec` at the all-zero mask. -/
theorem updateCausalMask4D_spec_witness :
    mask4Entries [[[[0]]]] ≠ [] ∧
    ((updateCausalMask4D [[[[0]]]] = Except.ok [[[[0]]]] ↔ mask4Max [[[[0]]]] = 0)
    ∧ ((∃ e, updateCausalMask4D [[[[0]]]] = Except.error e) ↔
      mask4Max [[[[0]]]] ≠ 0)) :=
  ⟨by decide, updateCausalMask4D_spec [[[[0]]]] (by decide)⟩

/-- **C1 counterexample**: with *no* attention mask, identical inputs,
dropout and weight output disabled, the eager strategy attends
bidirectionally while the SDPA strategy self-dispatches to causal masking
(`is_causal = causal_mask is None and q_len > 1`), so their outputs differ
already on a 2-token input — here at softmax exponential `≡ 1`, scaling `1`,
identity projections, one head of dimension 1: eager returns the running
mean at position 0, SDPA returns value 0. -/
theorem textAttention_no_mask_counterexample :
    eagerAttend (decoderAttnParams id id id id 1 1 1 (fun _ => 1))
        [[0], [1]] none none
      ≠ sdpaAttend (decoderAttnParams id id id id 1 1 1 (fun _ => 1))
        [[0], [1]] none none := by
  intro h
  have h0 := congrArg (fun l => (l.getD 0 []).getD 0 0) h
  norm_num [eagerAttend, sdpaAttend, sdpaPrimitiveRow, decoderAttnParams,
    mergedRow, normWeight, softmaxWeight, headScore, addMaskEntry,
    Option.getD_none, Option.isNone_none, List.range_succ, List.range_zero,
    List.map_cons, List.map_nil, List.map_append, List.nil_append,
    List.cons_append, List.sum_cons, List.sum_nil, List.getD_cons_zero,
    List.getD_cons_succ, id_eq] at h0

/-- **C1 (amended)**: with dropout and attention-weight output disabled and
no key/value cache, (i) the SDPA and flash strategies agree exactly on every
self-attention input when both are given no mask, and (ii) the eager strategy
agrees exactly with them when it is given the explicit causal mask that
`_update_causal_mask` builds for the same no-mask call — uniformly in the
projection weights, head layout, scaling factor and softmax exponential. -/
theorem textAttention_strategy_equivalence (qp kp vp op : Vec → Vec)
    (nH hd : ℕ) (s : ℚ) (ef : ℚ → ℚ) (hidden : Mat) :
    sdpaAttend (decoderAttnParams qp kp vp op nH hd s ef) hidden none none
      = flashAttend (decoderAttnParams qp kp vp op nH hd s ef) hidden none none
    ∧ eagerAttend (decoderAttnParams qp kp vp op nH hd s ef) hidden none
        (some (updateCausalMaskNoPad hidden.length))
      = sdpaAttend (decoderAttnParams qp kp vp op nH hd s ef) hidden none
          none := by
  constructor
  · simp only [sdpaAttend, flashAttend, decoderAttnParams, Option.getD_none,
      Option.isNone_none, Bool.true_and, Bool.and_true]
    refine List.map_congr_left ?_
    intro i hi
    have hiL : i < hidden.length := List.mem_range.mp hi
    refine congrArg op (congrArg _ ?_)
    simp only [sdpaPrimitiveRow, flashPrimitiveRow]
    refine mergedRow_congr _ _ _ _ _ _ _ ?_
    intro c _hc j hj
    refine congrArg (· * _) ?_
    refine normWeight_congr _ _ _ _ ?_ j hj
    intro j2 hj2
    by_cases hij : i < j2
    · have h2 : 1 < hidden.length := by omega
      simp [hij, h2, Nat.sub_self]
    · simp [hij, Nat.sub_self]
  · simp only [eagerAttend, sdpaAttend, decoderAttnParams, Option.getD_none,
      Option.isNone_none, Bool.true_and, Bool.and_true]
    refine List.map_congr_left ?_
    intro i hi
    have hiL : i < hidden.length := List.mem_range.mp hi
    refine congrArg op (congrArg _ ?_)
    simp only [sdpaPrimitiveRow]
    refine mergedRow_congr _ _ _ _ _ _ _ ?_
    intro c _hc j hj
    refine congrArg (· * _) ?_
    refine normWeight_congr _ _ _ _ ?_ j hj
    intro j2 hj2
    rw [updateCausalMaskNoPad_eq _ _ _ hj2]
    by_cases hij : i < j2
    · have h2 : 1 < hidden.length := by omega
      simp [hij, h2, addMaskEntry]
    · simp [hij, addMaskEntry, headScore_scaled, softmaxWeight]

/-- **C2**: two-run noninterference of the causal decoder self-attention:
for a no-padding, no-cache call of length `L > 1` with the causal mask built
by `_update_causal_mask`, the eager attention output at position `i` is
unchanged under arbitrary perturbation of the input (hence of the key/value
content) at every position `j > i`. -/
theorem causalAttention_noninterference (qp kp vp op : Vec → Vec)
    (nH hd : ℕ) (s : ℚ) (ef : ℚ → ℚ) (L i : ℕ) (hL : 1 < L) (hi : i < L)
    (hs hs' : Mat) (hlen : hs.length = L) (hlen' : hs'.length = L)
    (agree : ∀ t, t ≤ i → hs.getD t [] = hs'.getD t []) :
    (eagerAttend (decoderAttnParams qp kp vp op nH hd s ef) hs none
        (some (updateCausalMaskNoPad L))).getD i []
      = (eagerAttend (decoderAttnParams qp kp vp op nH hd s ef) hs' none
        (some (updateCausalMaskNoPad L))).getD i [] := by
  simp only [eagerAttend, decoderAttnParams, Option.getD_none]
  rw [hlen, hlen', getD_map_range _ _ _ _ hi, getD_map_range _ _ _ _ hi]
  refine congrArg op (congrArg _ ?_)
  refine mergedRow_congr _ _ _ _ _ _ _ ?_
  intro c _hc j hj
  by_cases hji : j ≤ i
  · have hvj : hs.getD j [] = hs'.getD j [] := agree j hji
    refine congrArg₂ (· * ·) ?_ (by rw [hvj])
    refine normWeight_congr _ _ _ _ ?_ j hj
    intro j2 hj2
    rw [updateCausalMaskNoPad_eq _ _ _ hj2]
    by_cases hij2 : i < j2
    · simp [hij2, addMaskEntry]
    · have h1 : hs.getD i [] = hs'.getD i [] := agree i le_rfl
      have h2 : hs.getD j2 [] = hs'.getD j2 [] := agree j2 (by omega)
      rw [if_neg hij2]
      simp only [addMaskEntry]
      rw [h1, h2]
  · have hmaskj : updateCausalMaskNoPad L i j = none := by
      rw [updateCausalMaskNoPad_eq _ _ _ hj]
      simp [show i < j by omega]
    rw [normWeight_eq_zero _ _ _ _ (by simp [hmaskj, addMaskEntry]),
      normWeight_eq_zero _ _ _ _ (by simp [hmaskj, addMaskEntry])]
    simp

/-- Witness for `causalAttention_noninterference`: the inputs `[[1], [2]]`
and `[[1], [3]]` differ only at position `1 > 0`, and the position-0 outputs
coincide. -/
theorem causalAttention_noninterference_witness :
    (1 : ℕ) < 2 ∧
    (eagerAttend (decoderAttnParams id id id id 1 1 1 (fun _ => 1))
        [[1], [2]] none (some (updateCausalMaskNoPad 2))).getD 0 []
      = (eagerAttend (decoderAttnParams id id id id 1 1 1 (fun _ => 1))
        [[1], [3]] none (some (updateCausalMaskNoPad 2))).getD 0 [] :=
  ⟨by decide,
    causalAttention_noninterference id id id id 1 1 1 (fun _ => 1) 2 0
      (by decide) (by decide) [[1], [2]] [[1], [3]] rfl rfl
      (fun t ht => by
        have h0 : t = 0 := Nat.le_zero.mp ht
        subst h0
        rfl)⟩

/-- **C9**: for every input image-patch sequence, of any length, the
`Kosmos2_5ImageToTextProjection` output sequence length is exactly the
configured latent query count — under every attention strategy — since the
latent queries are the attention queries and the concatenated
features-plus-latents only form the key/value input. -/
theorem imageToTextProjection_length (strategy : AttnStrategy)
    (dense : Vec → Vec) (latentQueryNum : ℕ) (latentQueryInit : ℕ → Vec)
    (qp kp vp op : Vec → Vec) (nH hd : ℕ) (s : ℚ) (ef : ℚ → ℚ)
    (features : Mat) :
    (imageToTextProjectionForward strategy dense latentQueryNum
      latentQueryInit qp kp vp op nH hd s ef features).length
      = latentQueryNum := by
  cases strategy <;>
    simp [imageToTextProjectionForward, attendByStrategy, eagerAttend,
      sdpaAttend, flashAttend]

/-- **C3**: `Kosmos2_5TextTransformer.forward`, as committed, raises on
*every* invocation (undefined local names and a `None`-attribute access —
see the model's docstring), so neither the full-sequence no-cache decode of
the prefix `[0, 10, 11, 2]` nor any of its single-token cached steps produces
final hidden states, and the claimed equality of the two decode modes has no
runs to compare: the first two conjuncts evaluate the code at the failing
inputs, the third shows no argument combination returns at all. -/
theorem textDecoder_cached_decode_raises :
    (textTransformerForwardEager (some [0, 10, 11, 2]) (some [1, 1, 1, 1])
        none none none =
      Except.error "AttributeError: 'NoneType' object has no attribute 'shape'")
    ∧ (textTransformerForwardEager (some [0]) (some [1]) none none none =
      Except.error "AttributeError: 'NoneType' object has no attribute 'shape'")
    ∧ ∀ (ids : Option (List ℤ)) (am : Option (List ℚ)) (pkv : Option Unit)
        (ie : Option Mat) (cp : Option (List ℕ)),
        ∃ msg, textTransformerForwardEager ids am pkv ie cp =
          Except.error msg := by
  refine ⟨rfl, rfl, ?_⟩
  intro ids am pkv ie cp
  cases ids <;> cases ie <;> cases cp <;> exact ⟨_, rfl⟩

/-- **C4**: the conditional-generation forward pass on the claim's input —
a 1-patch-row all-zero dummy image, token sequence `[BOS, 10, 11, EOS]`
(= `[0, 10, 11, 2]`), all-ones attention mask, no image slots — does not
return logits: the text decoder it delegates to dies evaluating
`inputs_embeds.shape[1]` with `inputs_embeds=None` (line 1525), so the call
raises instead of completing. -/
theorem conditionalGeneration_forward_raises :
    conditionalGenerationForwardEager (some [[0, 0, 0, 0]])
        (some [0, 10, 11, 2]) (some [1, 1, 1, 1]) none =
      Except.error "AttributeError: 'NoneType' object has no attribute 'shape'" :=
  rfl

end Kosmos2_5
